import Mathlib

/-!
Verification of the AgentOS monolith backend specification against the
source under `backend/app`.  Each claim about the system is formalised over
a shallow embedding of the relevant Python code: pure logic becomes Lean
functions, the document store becomes explicit state or a lookup function,
fallible code returns `Except`/`Option`, `datetime` values become `Nat`
timestamps, and Python `float` money values become `ℚ` (the float-specific
rounding behaviour relevant to the claims is documented at `pyRound2`).

Sources embedded here:
  * `app/modules/delivery/service.py`, `repository.py`, `exceptions.py`, `agent.py`
  * `app/modules/sales/service.py`, `repository.py`, `exceptions.py`, `agent.py`
  * `app/api/v1/endpoints/mcp_gateway.py`
  * `app/services/audit_service.py`, `mcp_executor.py`, `notification_service.py`
  * `app/websocket/redis_listener.py`
  * `app/core/config.py`
-/

/- `Rat.mul/add/sub/inv` are shipped `@[irreducible]`; the concrete witness
evaluations below need them to reduce. -/
attribute [local semireducible] Rat.mul Rat.add Rat.sub Rat.inv

deriving instance DecidableEq for Except

namespace AgentOS

/-! ## String ordering helpers

Python's `sorted` on `str` compares strings lexicographically by Unicode
code point.  We model that with an executable comparator on the character
list of the string (`Char.toNat` is the code point); sortedness plus
permutation determine the result of any correct sort, so
`List.insertionSort` with this comparator models CPython's sort on the
string lists appearing in the code. -/

/-- Lexicographic (by code point) less-or-equal on character lists. -/
def charListLe : List Char → List Char → Bool
  | [], _ => true
  | _ :: _, [] => false
  | a :: as, b :: bs =>
    if a.toNat < b.toNat then true
    else if b.toNat < a.toNat then false
    else charListLe as bs

/-- Lexicographic (by code point) less-or-equal on strings, as Python compares `str`. -/
def strLeB (a b : String) : Bool :=
  charListLe a.data b.data

/-- `sorted(...)` on a list of strings (Python builtin), modelled as insertion sort
under the code-point order. -/
def sortStrings (l : List String) : List String :=
  List.insertionSort (fun a b => strLeB a b = true) l

/-! ## ObjectId validity (`bson.ObjectId.is_valid` on strings) -/

/-- Hexadecimal digit check used by `ObjectId.is_valid`. -/
def isHexChar (c : Char) : Bool :=
  c.isDigit || ('a' ≤ c && c ≤ 'f') || ('A' ≤ c && c ≤ 'F')

/-- `bson.ObjectId.is_valid` restricted to string input: a 24-character
hexadecimal string. -/
def isValidObjectId (s : String) : Bool :=
  s.length == 24 && s.data.all isHexChar

/-- A FastAPI `HTTPException` as surfaced by the services: status code plus detail. -/
structure HTTPError where
  statusCode : Nat
  detail : String
deriving DecidableEq

/-! ## Delivery data model (`app/db/schemas/delivery_schemas.py`) -/

/-- `DeliveryStatus` enum. -/
inductive DeliveryStatus where
  | pendingAssignment
  | assigned
  | pickingUp
  | inTransit
  | nearDestination
  | delivered
  | failedAttempt
  | failedDelivery
  | cancelled
  | returned
deriving DecidableEq

/-- The `.value` string of each `DeliveryStatus` member. -/
def DeliveryStatus.value : DeliveryStatus → String
  | .pendingAssignment => "pending_assignment"
  | .assigned => "assigned"
  | .pickingUp => "picking_up"
  | .inTransit => "in_transit"
  | .nearDestination => "near_destination"
  | .delivered => "delivered"
  | .failedAttempt => "failed_attempt"
  | .failedDelivery => "failed_delivery"
  | .cancelled => "cancelled"
  | .returned => "returned"

/-- The Python enum member `.name` of each `DeliveryStatus` member (used in the
default tracking description `f"Status updated to {new_status.name}"`). -/
def DeliveryStatus.pyName : DeliveryStatus → String
  | .pendingAssignment => "PENDING_ASSIGNMENT"
  | .assigned => "ASSIGNED"
  | .pickingUp => "PICKING_UP"
  | .inTransit => "IN_TRANSIT"
  | .nearDestination => "NEAR_DESTINATION"
  | .delivered => "DELIVERED"
  | .failedAttempt => "FAILED_ATTEMPT"
  | .failedDelivery => "FAILED_DELIVERY"
  | .cancelled => "CANCELLED"
  | .returned => "RETURNED"

/-- The terminal statuses listed in `DeliveryRepository.add_tracking_event`
(they trigger the TTL `expire_at` write). -/
def isTerminalDeliveryStatus (s : DeliveryStatus) : Bool :=
  s == .delivered || s == .failedDelivery || s == .cancelled || s == .returned

instance : BEq DeliveryStatus := instBEqOfDecidableEq

/-- GeoJSON-like point (`LocationPoint`); coordinates are `[longitude, latitude]`. -/
structure LocationPoint where
  longitude : ℚ
  latitude : ℚ
deriving DecidableEq

/-- `TrackingEventDoc`: one event in the delivery timeline. -/
structure TrackingEvent where
  timestamp : Nat
  status : DeliveryStatus
  description : String
  actorId : Option String
  location : Option LocationPoint
deriving DecidableEq

/-- `DeliveryItem`: simplified item info embedded in a delivery. -/
structure DeliveryItem where
  productId : String
  sku : String
  name : String
  quantity : Nat
deriving DecidableEq

/-- `DeliverySessionDoc`: a delivery task document. -/
structure Delivery where
  id : String
  saleId : String
  clientProfileId : String
  courierProfileId : Option String
  items : List DeliveryItem
  pickupAddress : String
  deliveryAddress : String
  currentStatus : DeliveryStatus
  trackingHistory : List TrackingEvent
  currentLocation : Option LocationPoint
  expireAt : Option Nat
  createdAt : Nat
  updatedAt : Nat
deriving DecidableEq

/-- The `deliveries` collection, as a lookup from ObjectId string to document. -/
def DeliveryStore := String → Option Delivery

/-- `DeliveryRepository.get_delivery_by_id`: `None` for syntactically invalid
ObjectIds (before any store access), else a store lookup. -/
def getDeliveryById (store : DeliveryStore) (deliveryId : String) : Option Delivery :=
  if isValidObjectId deliveryId then store deliveryId else none

/-- `getattr(settings, "DELIVERY_DOC_TTL_DAYS", 30)` in
`DeliveryRepository.add_tracking_event` (the setting is absent from
`config.py`, so the default applies). -/
def deliveryDocTtlDays : Nat := 30

/-- Seconds in a day, to express `timedelta(days=n)` over `Nat` timestamps. -/
def secondsPerDay : Nat := 86400

/-- `DeliveryRepository.add_tracking_event`: atomically set `current_status`
and `updated_at`, push the event onto `tracking_history`, conditionally set
`current_location`, and on a terminal status set `expire_at`.  Returns the
updated document (`None` when the id is invalid or absent). -/
def addTrackingEvent (store : DeliveryStore) (deliveryId : String)
    (event : TrackingEvent) (newStatus : DeliveryStatus)
    (location : Option LocationPoint) : Option Delivery :=
  if isValidObjectId deliveryId then
    match store deliveryId with
    | none => none
    | some d =>
        let d1 := { d with
          currentStatus := newStatus
          updatedAt := event.timestamp
          trackingHistory := d.trackingHistory ++ [event] }
        let d2 := match location with
          | some loc => { d1 with currentLocation := some loc }
          | none => d1
        let d3 :=
          if isTerminalDeliveryStatus newStatus then
            { d2 with expireAt := some (event.timestamp + deliveryDocTtlDays * secondsPerDay) }
          else d2
        some d3
  else none

/-- Delivery module exceptions (`app/modules/delivery/exceptions.py`). -/
inductive DeliveryError where
  | notFound (deliveryId : String)
  | invalidStatus (deliveryId : String) (currentStatus : String) (action : String)
  | generic (msg : String)
deriving DecidableEq

/-- `DeliveryService.update_delivery_status` (service.py lines 97-163): fetch the
delivery, build a tracking event, and apply it via the repository.  The
status-transition validation at step 2 of the method is commented out in the
source, so **no** transition check is performed.  The pub/sub notification and
audit side effects do not affect the returned document and are omitted. -/
def updateDeliveryStatus (store : DeliveryStore) (deliveryId : String)
    (newStatus : DeliveryStatus) (actorId : String)
    (description : Option String) (location : Option LocationPoint)
    (now : Nat) : Except DeliveryError Delivery :=
  match getDeliveryById store deliveryId with
  | none => .error (.notFound deliveryId)
  | some _ =>
      let eventDesc := description.getD ("Status updated to " ++ newStatus.pyName)
      let event : TrackingEvent :=
        { timestamp := now
          status := newStatus
          description := eventDesc
          actorId := some actorId
          location := location }
      match addTrackingEvent store deliveryId event newStatus location with
      | none => .error (.generic "Failed to update delivery status after initial fetch.")
      | some updated => .ok updated

/-- Modelled from the spec (§4.5 Delivery State Machine): the permitted
transition relation
`pending_assignment → assigned → picking_up → in_transit → near_destination →
delivered`, the `failed_attempt` detour between `picking_up` and `in_transit`,
`near_destination → failed_delivery`, `any non-terminal → cancelled`, and
`assigned → returned`.  Stated for comparison with the code; every reading of
the spec rejects `pending_assignment → in_transit`. -/
def specAllowedTransition : DeliveryStatus → DeliveryStatus → Bool
  | .pendingAssignment, .assigned => true
  | .assigned, .pickingUp => true
  | .pickingUp, .inTransit => true
  | .pickingUp, .failedAttempt => true
  | .failedAttempt, .inTransit => true
  | .inTransit, .nearDestination => true
  | .nearDestination, .delivered => true
  | .nearDestination, .failedDelivery => true
  | .assigned, .returned => true
  | from_, .cancelled => !(isTerminalDeliveryStatus from_)
  | _, _ => false

/-- A concrete freshly-created delivery in status `pending_assignment`. -/
def pendingDelivery : Delivery :=
  { id := "64b0c0ffee0123456789abcd"
    saleId := "64b0c0ffee0123456789abce"
    clientProfileId := "P1"
    courierProfileId := none
    items := [{ productId := "64b0c0ffee0123456789abcf", sku := "SKU-1",
                name := "Widget", quantity := 2 }]
    pickupAddress := "Warehouse 1"
    deliveryAddress := "Main St 5"
    currentStatus := .pendingAssignment
    trackingHistory := []
    currentLocation := none
    expireAt := none
    createdAt := 1000
    updatedAt := 1000 }

/-- A delivery store holding exactly `pendingDelivery`. -/
def deliveryStore1 : DeliveryStore :=
  fun deliveryId => if deliveryId = pendingDelivery.id then some pendingDelivery else none

/-! ## Sales data model (`app/db/schemas/sale_schemas.py`) -/

/-- `SaleStatus` enum. -/
inductive SaleStatus where
  | pendingPayment
  | processing
  | completed
  | shipping
  | delivered
  | cancelled
  | refunded
  | error
deriving DecidableEq

/-- The `.value` string of each `SaleStatus` member. -/
def SaleStatus.value : SaleStatus → String
  | .pendingPayment => "pending_payment"
  | .processing => "processing"
  | .completed => "completed"
  | .shipping => "shipping"
  | .delivered => "delivered"
  | .cancelled => "cancelled"
  | .refunded => "refunded"
  | .error => "error"

/-- `SaleAgentType` enum. -/
inductive SaleAgentType where
  | human
  | bot
  | system
deriving DecidableEq

/-- `SaleItem`: an item within a sale.  Monetary values (`unit_price`,
`total_price`) are Python floats in the source; they are embedded as `ℚ`. -/
structure SaleItem where
  productId : String
  sku : String
  name : String
  quantity : Nat
  unitPrice : ℚ
  totalPrice : ℚ
deriving DecidableEq

/-- A `status_history` entry as written by `create_sale`
(`{"status": ..., "timestamp": ..., "actor_id": ...}`). -/
structure StatusHistoryEntry where
  status : String
  timestamp : Nat
  actorId : String
deriving DecidableEq

/-- `SaleDoc`: a sales transaction document (fields relevant to the claims). -/
structure Sale where
  id : String
  clientId : String
  agentId : String
  agentType : SaleAgentType
  items : List SaleItem
  totalAmount : ℚ
  currency : String
  status : SaleStatus
  statusHistory : List StatusHistoryEntry
  originChannel : Option String
  contextualNote : Option String
  createdAt : Nat
  updatedAt : Nat
deriving DecidableEq

/-- `CreateSaleItemInput` (sales service DTO): SKU plus quantity. -/
structure CreateSaleItemInput where
  sku : String
  quantity : Nat
deriving DecidableEq

/-- `CreateSaleInput` (sales service DTO). -/
structure CreateSaleInput where
  clientId : String
  agentId : String
  agentType : SaleAgentType
  items : List CreateSaleItemInput
  originChannel : Option String
  contextualNote : Option String
  currency : String
deriving DecidableEq

/-- Sales module exceptions (`app/modules/sales/exceptions.py`). -/
inductive SalesError where
  | productNotFound (sku : String)
  | clientNotFound (clientId : String)
  | insufficientStock (sku : String) (requested : Nat) (available : Nat)
  | lowClientScore (clientId : String)
  | duplicateSale (clientId : String) (agentId : String)
  | saleCreation (msg : String)
deriving DecidableEq

/-- `app/core/exceptions.RepositoryError`. -/
structure RepoError where
  msg : String
deriving DecidableEq

/-- The status-code mapping in `SalesAgent.execute` (agent.py lines 134-136):
conflict-style domain errors map to 409, missing entities to 404, anything
else to 400. -/
def salesAgentStatusCode : SalesError → Nat
  | .insufficientStock _ _ _ => 409
  | .lowClientScore _ => 409
  | .duplicateSale _ _ => 409
  | .productNotFound _ => 404
  | .clientNotFound _ => 404
  | .saleCreation _ => 400

/-- The `f"{sku}:{quantity}"` string of one item. -/
def itemSig (sku : String) (qty : Nat) : String :=
  sku ++ ":" ++ toString qty

/-- The canonical duplicate signature `"|".join(sorted(f"{sku}:{qty}" ...))`
built by `SalesService._check_duplicate_sale`. -/
def saleSignature (pairs : List (String × Nat)) : String :=
  String.intercalate "|" (sortStrings (pairs.map fun p => itemSig p.1 p.2))

/-- The `(sku, quantity)` pairs of a stored sale's items. -/
def itemPairsOfSale (s : Sale) : List (String × Nat) :=
  s.items.map fun it => (it.sku, it.quantity)

/-- The `(sku, quantity)` pairs of a request's items. -/
def itemPairsOfInput (items : List CreateSaleItemInput) : List (String × Nat) :=
  items.map fun i => (i.sku, i.quantity)

/-- `SaleRepository.find_recent_by_agent_and_client`: sales of the same agent
and client created at or after `now - window`, excluding `cancelled` ones.
(The descending sort applied by the query does not matter to the scan.) -/
def findRecentByAgentAndClient (sales : List Sale) (agentId clientId : String)
    (now window : Nat) : List Sale :=
  sales.filter fun s =>
    s.agentId == agentId && s.clientId == clientId &&
    decide (now - window ≤ s.createdAt) && decide (s.status ≠ SaleStatus.cancelled)

/-- `SalesService._check_duplicate_sale`: over the repository result for recent
sales of `(agent_id, client_id)`, compare canonical signatures and raise
`DuplicateSaleError(client_id, agent_id)` on a match.  A `RepositoryError`
from the query is caught and logged, and the check returns normally
(service.py lines 188-190). -/
def checkDuplicateSale (recentResult : Except RepoError (List Sale))
    (agentId clientId : String) (items : List CreateSaleItemInput) :
    Except SalesError Unit :=
  match recentResult with
  | .error _ => .ok ()
  | .ok recent =>
      let newSig := saleSignature (itemPairsOfInput items)
      if recent.any (fun s => saleSignature (itemPairsOfSale s) == newSig) then
        .error (.duplicateSale clientId agentId)
      else
        .ok ()

/-! ## Products, stock allocation and `create_sale`
(`app/modules/sales/service.py`).  The `ProductService` module
(`app/modules/products/service.py`) is imported by the sales service but is
not part of the source tree, so stock allocation is modelled from the spec. -/

/-- `ProductDoc` (fields used by sale creation). -/
structure Product where
  id : String
  sku : String
  name : String
  active : Bool
  availableStock : Nat
  version : Nat
  standardSellingPrice : ℚ
deriving DecidableEq

/-- `ProfileDoc`, reduced to what `create_sale` reads: id and active flag. -/
structure Profile where
  id : String
  isActive : Bool
deriving DecidableEq

/-- The sales-relevant slice of the document store: the `products` and `sales`
collections.  `create_sale` mutates both inside one multi-document
transaction. -/
structure SalesState where
  products : List Product
  sales : List Sale
deriving DecidableEq

/-- Modelled from the spec: `ProductService.allocate_stock`
(`app/modules/products/service.py` is missing from the source tree).  Spec
§4.4 step 3: read the active product by SKU (missing → `ProductNotFound`);
if `available_stock < quantity` → `InsufficientStock {sku, requested,
available}`; else decrement `available_stock` and bump `version`.  The
optimistic compare-and-set retry always succeeds in this single-threaded
embedding. -/
def allocateStock (st : SalesState) (sku : String) (qty : Nat) :
    Except SalesError (SalesState × Product) :=
  match st.products.find? (fun p => p.sku == sku && p.active) with
  | none => .error (.productNotFound sku)
  | some p =>
      if p.availableStock < qty then
        .error (.insufficientStock sku qty p.availableStock)
      else
        let updated := { p with
          availableStock := p.availableStock - qty
          version := p.version + 1 }
        .ok ({ st with
                products := st.products.map fun q => if q.sku == p.sku then updated else q },
             updated)

/-- Python's `round(x, 2)` on a float: round to 2 fractional digits with ties
to even (banker's rounding).  Embedded over `ℚ`; on inputs whose exact value
and 100-fold are dyadic rationals representable in binary64 (such as `0.125`)
this agrees digit-for-digit with CPython, up to the final storage of the
decimal result as the nearest float. -/
def pyRound2 (q : ℚ) : ℚ :=
  let x := q * 100
  let f : ℤ := ⌊x⌋
  let r := x - (f : ℚ)
  let c : ℤ :=
    if r < 1/2 then f
    else if 1/2 < r then f + 1
    else if f % 2 = 0 then f else f + 1
  (c : ℚ) / 100

/-- Decimal rounding to 2 fractional digits with ties away from zero — the
rounding mode the spec mandates (§4.4 "Rounding").  Stated for comparison
with `pyRound2`. -/
def specRound2 (q : ℚ) : ℚ :=
  let c : ℤ := if 0 ≤ q then ⌊q * 100 + 1/2⌋ else -⌊-(q * 100) + 1/2⌋
  (c : ℚ) / 100

/-- The per-item loop of the `create_sale` transaction (service.py lines
101-124): allocate stock, take `unit_price` from
`product.standard_selling_price`, compute
`total_item_price = round(unit_price * quantity, 2)`, accumulate
`total_amount`, and build the `SaleItem` list in submission order. -/
def processSaleItems (st : SalesState) :
    List CreateSaleItemInput → Except SalesError (SalesState × List SaleItem × ℚ)
  | [] => .ok (st, [], 0)
  | i :: rest =>
      match allocateStock st i.sku i.quantity with
      | .error e => .error e
      | .ok (st1, product) =>
          let unitPrice := product.standardSellingPrice
          let totalItemPrice := pyRound2 (unitPrice * (i.quantity : ℚ))
          let item : SaleItem :=
            { productId := product.id
              sku := product.sku
              name := product.name
              quantity := i.quantity
              unitPrice := unitPrice
              totalPrice := totalItemPrice }
          match processSaleItems st1 rest with
          | .error e => .error e
          | .ok (st2, restItems, restTotal) =>
              .ok (st2, item :: restItems, totalItemPrice + restTotal)

/-- `SalesService.create_sale` (service.py lines 59-172).  Pre-flight: resolve
the client profile (missing or inactive → `ClientNotFoundError`) and run the
duplicate check.  Then the multi-document transaction: allocate stock per
item, build the `SaleDoc` with `status = processing`,
`total_amount = round(total, 2)` and the initial `status_history` entry with
`actor_id = agent_id`, and insert it.  Any exception inside the transaction
aborts it: the store state reverts to the pre-transaction snapshot (MongoDB
`session.with_transaction` semantics).  Returns the post-call store state and
the outcome. -/
def createSale (st : SalesState) (profiles : List Profile) (inp : CreateSaleInput)
    (now window : Nat) (newSaleId : String) : SalesState × Except SalesError Sale :=
  match profiles.find? (fun p => p.id == inp.clientId) with
  | none => (st, .error (.clientNotFound inp.clientId))
  | some client =>
      if !client.isActive then
        (st, .error (.clientNotFound inp.clientId))
      else
        match checkDuplicateSale
            (.ok (findRecentByAgentAndClient st.sales inp.agentId inp.clientId now window))
            inp.agentId inp.clientId inp.items with
        | .error e => (st, .error e)
        | .ok () =>
            match processSaleItems st inp.items with
            | .error e => (st, .error e)
            | .ok (st1, saleItems, total) =>
                let sale : Sale :=
                  { id := newSaleId
                    clientId := inp.clientId
                    agentId := inp.agentId
                    agentType := inp.agentType
                    items := saleItems
                    totalAmount := pyRound2 total
                    currency := inp.currency
                    status := .processing
                    statusHistory := [{ status := SaleStatus.processing.value,
                                        timestamp := now, actorId := inp.agentId }]
                    originChannel := inp.originChannel
                    contextualNote := inp.contextualNote
                    createdAt := now
                    updatedAt := now }
                ({ st1 with sales := st1.sales ++ [sale] }, .ok sale)

/-- The `sales` collection as a lookup from ObjectId string to document. -/
def SaleStore := String → Option Sale

/-- `SaleRepository.get_sale_by_id`: `None` for syntactically invalid
ObjectIds (before any store access), else a store lookup. -/
def getSaleById (store : SaleStore) (saleId : String) : Option Sale :=
  if isValidObjectId saleId then store saleId else none

/-- `SalesService.get_sale_by_id`: 404 `"Sale not found."` when the repository
returns `None`. -/
def serviceGetSaleById (store : SaleStore) (saleId : String) : Except HTTPError Sale :=
  match getSaleById store saleId with
  | none => .error { statusCode := 404, detail := "Sale not found." }
  | some s => .ok s

/-! ## MCP gateway execution context
(`app/api/v1/endpoints/mcp_gateway.py` lines 39-46). -/

/-- A value stored in the execution-context dict: the authoritative fields are
strings except `roles`, which is a string list. -/
inductive CtxVal where
  | strVal (v : String)
  | listVal (vs : List String)
deriving DecidableEq

/-- The execution-context dict, as an association list in insertion order. -/
def CtxDict := List (String × CtxVal)

/-- Python dict assignment `d[k] = v`: overwrite in place when the key exists,
else append. -/
def setKey : CtxDict → String → CtxVal → CtxDict
  | [], k, v => [(k, v)]
  | (k1, v1) :: rest, k, v =>
      if k1 = k then (k, v) :: rest else (k1, v1) :: setKey rest k v

/-- Python dict lookup `d.get(k)`. -/
def lookupKey : CtxDict → String → Option CtxVal
  | [], _ => none
  | (k1, v1) :: rest, k => if k1 = k then some v1 else lookupKey rest k

/-- The authenticated principal (`app.core.security.UserPublic` as consumed by
the gateway: `user_id` and `roles`; the security module itself is outside the
source tree). -/
structure UserPublic where
  userId : String
  roles : List String
deriving DecidableEq

/-- `execute_mcp_action`, context-enrichment step: start from the
caller-supplied `request.context` dump (or `{}`), then overwrite `agent_id`,
`user_id`, `roles` and `trace_id` from the authenticated `CurrentUser` and
the middleware trace id. -/
def buildExecContext (callerCtx : CtxDict) (currentUser : UserPublic)
    (traceId : String) : CtxDict :=
  setKey (setKey (setKey (setKey callerCtx
    "agent_id" (.strVal currentUser.userId))
    "user_id" (.strVal currentUser.userId))
    "roles" (.listVal currentUser.roles))
    "trace_id" (.strVal traceId)

/-! ## Audit sink and the MCP executor sanitizer
(`app/services/audit_service.py`, `app/services/mcp_executor.py`). -/

/-- A Python value as it appears in audit payloads.  `bytes` behaves like
`str` for the length cap and is not modelled separately; floats are embedded
as `ℚ`. -/
inductive PyVal where
  | str (s : String)
  | intVal (n : Int)
  | floatVal (q : ℚ)
  | boolVal (b : Bool)
  | noneVal
  | listVal (xs : List PyVal)
  | dictVal (kvs : List (String × PyVal))
  | objVal (typeName : String)

/-- The secret-key markers of `sanitize_log_data`
(mcp_executor.py line 51). -/
def secretKeyMarkers : List String :=
  ["password", "secret", "token", "key", "authorization", "senha"]

/-- Contiguous-sublist test on character lists (Python's `in` on strings). -/
def containsSub (needle hay : List Char) : Bool :=
  match hay with
  | [] => needle.isEmpty
  | _ :: rest => needle.isPrefixOf hay || containsSub needle rest

/-- ASCII lowercase of one character (all marker comparisons involve ASCII). -/
def asciiLower (c : Char) : Char :=
  if 'A' ≤ c && c ≤ 'Z' then Char.ofNat (c.toNat + 32) else c

/-- Python `k.lower()` restricted to ASCII. -/
def strLower (s : String) : String :=
  ⟨s.data.map asciiLower⟩

/-- `any(secret_key in k_lower for secret_key in [...])`: does the lowercased
key contain one of the secret markers? -/
def isSecretKey (k : String) : Bool :=
  secretKeyMarkers.any fun m => containsSub m.data (strLower k).data

/-- `sanitize_log_data(data, depth, max_depth=5)` from
`mcp_executor.log_audit_event`, with the recursion depth re-indexed as the
remaining budget `remaining = max_depth + 1 - depth` (the source guard
`depth > max_depth` is exactly `remaining = 0`).  Dict values under a secret
key are masked; other dict values and list elements recurse one level deeper;
lists are cut to their first 50 elements; strings longer than 500 characters
are truncated with a marker; basic scalars pass through; any other object is
replaced by its type name. -/
def sanitizeAux : Nat → PyVal → PyVal
  | 0, _ => .str "*** DEPTH LIMIT ***"
  | r + 1, v =>
      match v with
      | .dictVal kvs =>
          .dictVal (kvs.map fun kv =>
            if isSecretKey kv.1 then (kv.1, .str "*** MASKED ***")
            else (kv.1, sanitizeAux r kv.2))
      | .listVal xs => .listVal ((xs.take 50).map fun x => sanitizeAux r x)
      | .str s =>
          if s.length > 500 then .str ⟨s.data.take 500 ++ ("... TRUNCATED").data⟩
          else .str s
      | .intVal n => .intVal n
      | .floatVal q => .floatVal q
      | .boolVal b => .boolVal b
      | .noneVal => .noneVal
      | .objVal typeName => .str ("<" ++ typeName ++ ">")

/-- `sanitize_log_data(data)` at the call sites: depth 0, max depth 5. -/
def sanitizeLogData (v : PyVal) : PyVal :=
  sanitizeAux 6 v

mutual

/-- JSON-like payloads: built only from scalars, strings, lists and dicts
(no foreign objects).  The sanitizer replaces foreign objects by their type
name, whose length is not capped, so the cap theorem is stated for JSON-like
inputs. -/
def isJsonLike : PyVal → Bool
  | .str _ => true
  | .intVal _ => true
  | .floatVal _ => true
  | .boolVal _ => true
  | .noneVal => true
  | .listVal xs => isJsonLikeList xs
  | .dictVal kvs => isJsonLikeKvs kvs
  | .objVal _ => false

/-- `isJsonLike` over a list of values. -/
def isJsonLikeList : List PyVal → Bool
  | [] => true
  | x :: xs => isJsonLike x && isJsonLikeList xs

/-- `isJsonLike` over dict entries. -/
def isJsonLikeKvs : List (String × PyVal) → Bool
  | [] => true
  | kv :: kvs => isJsonLike kv.2 && isJsonLikeKvs kvs

end

mutual

/-- A sanitized payload: every string is at most 513 characters (500 plus the
13-character truncation marker), every list holds at most 50 elements, every
dict value under a secret key is the mask string, and foreign objects do not
occur. -/
def sanitizedOk : PyVal → Bool
  | .str s => decide (s.length ≤ 513)
  | .intVal _ => true
  | .floatVal _ => true
  | .boolVal _ => true
  | .noneVal => true
  | .listVal xs => decide (xs.length ≤ 50) && sanitizedOkList xs
  | .dictVal kvs => sanitizedOkKvs kvs
  | .objVal _ => false

/-- `sanitizedOk` over a list of values. -/
def sanitizedOkList : List PyVal → Bool
  | [] => true
  | x :: xs => sanitizedOk x && sanitizedOkList xs

/-- `sanitizedOk` over dict entries: secret keys must be masked, other values
recurse. -/
def sanitizedOkKvs : List (String × PyVal) → Bool
  | [] => true
  | kv :: kvs =>
      (if isSecretKey kv.1 then
        match kv.2 with
        | .str s => s == "*** MASKED ***"
        | _ => false
      else sanitizedOk kv.2) && sanitizedOkKvs kvs

end

mutual

/-- Container-nesting depth of a payload (scalars have depth 0). -/
def pyDepth : PyVal → Nat
  | .listVal xs => pyDepthList xs + 1
  | .dictVal kvs => pyDepthKvs kvs + 1
  | _ => 0

/-- Maximal `pyDepth` over a list of values. -/
def pyDepthList : List PyVal → Nat
  | [] => 0
  | x :: xs => max (pyDepth x) (pyDepthList xs)

/-- Maximal `pyDepth` over dict entries. -/
def pyDepthKvs : List (String × PyVal) → Nat
  | [] => 0
  | kv :: kvs => max (pyDepth kv.2) (pyDepthKvs kvs)

end

/-- The audit document assembled by `AuditService.log_event`
(audit_service.py lines 49-58). -/
structure AuditLogEntry where
  timestamp : Nat
  actorId : String
  action : String
  entityType : Option String
  entityId : Option String
  success : Bool
  details : PyVal
  traceId : String

/-- `AuditService.log_event`: build the log entry and insert it.  `details`
is written as `details or {}` — no sanitization is applied in this sink. -/
def auditLogEvent (actorId action : String) (entityType entityId : Option String)
    (success : Bool) (details : Option PyVal) (traceId : Option String)
    (now : Nat) : AuditLogEntry :=
  { timestamp := now
    actorId := actorId
    action := action
    entityType := entityType
    entityId := entityId
    success := success
    details := details.getD (.dictVal [])
    traceId := traceId.getD "N/A" }

/-! ## Notification fan-out (`app/services/notification_service.py`,
`SalesService._trigger_post_sale_actions`). -/

/-- The payload `publish_websocket_update` builds: internal routing fields
plus the event type and data. -/
structure WsPayload where
  targetField : String
  targetIdField : String
  eventType : String
  data : List (String × String)
deriving DecidableEq

/-- A message published to the broker: channel plus payload. -/
structure PublishedMessage where
  channel : String
  payload : WsPayload
deriving DecidableEq

/-- `settings.BACKEND_PUBLISH_EVENT_CHANNEL` (config.py line 78). -/
def backendPublishEventChannel : String := "backend.events"

/-- `NotificationService.publish_websocket_update`: wrap the routing fields
and data and publish on the configured backend channel. -/
def publishWebsocketUpdate (target targetId eventType : String)
    (data : List (String × String)) : PublishedMessage :=
  { channel := backendPublishEventChannel
    payload := { targetField := target
                 targetIdField := targetId
                 eventType := eventType
                 data := data } }

/-- The single broker publication performed by
`SalesService._trigger_post_sale_actions` for a committed sale
(service.py lines 203-209): `target="all"`, `target_id="sales_dashboard"`,
`event_type="sale_created"`, data `{sale_id, status}`.  (The audit write and
the optional Celery dispatch publish nothing.) -/
def postSaleEvents (saleId : String) : List PublishedMessage :=
  [publishWebsocketUpdate "all" "sales_dashboard" "sale_created"
    [("sale_id", saleId), ("status", SaleStatus.processing.value)]]

/-! ## Stream broadcaster routing (`app/websocket/redis_listener.py`
lines 58-73). -/

/-- The routing-relevant part of an incoming broker envelope:
`payload.get("__target__", "all")` and `payload.get("__target_id__")`. -/
structure WsEnvelope where
  targetField : Option String
  targetIdField : Option String
deriving DecidableEq

/-- A live websocket subscriber: its authenticated principal id and the
groups it has joined. -/
structure Subscriber where
  principalId : String
  joinedGroups : List String
deriving DecidableEq

/-- The routing decision of `websocket_redis_listener_loop`: `target == "all"`
broadcasts to everyone; `target == "user"` with a truthy `target_id` goes to
the connections of that principal (`manager.broadcast_to_user`, modelled from
the spec: the connection manager module is outside the source tree); every
other combination — including `target == "group"` — falls into the `else`
branch, which logs a warning and broadcasts to all. -/
def deliveredTo (env : WsEnvelope) (subs : List Subscriber) : List Subscriber :=
  let target := env.targetField.getD "all"
  if target == "all" then subs
  else
    match env.targetIdField with
    | some tid =>
        if target == "user" && tid != "" then
          subs.filter (fun s => s.principalId == tid)
        else subs
    | none => subs

/-! ## Concrete fixtures used by the witness evaluations -/

/-- An active client profile. -/
def clientP1 : Profile := { id := "P1", isActive := true }

/-- A product priced `0.125` (an exactly representable binary64 value whose
2-digit rounding separates ties-to-even from ties-away-from-zero). -/
def productEighth : Product :=
  { id := "64b0c0ffee0123456789abc0"
    sku := "SKU-1"
    name := "Widget"
    active := true
    availableStock := 10
    version := 1
    standardSellingPrice := 1/8 }

/-- A store slice holding only `productEighth` and no sales. -/
def eighthState : SalesState := { products := [productEighth], sales := [] }

/-- A `create_sale` request for one unit of `SKU-1` by agent `U1` for client `P1`. -/
def inputOneEighth : CreateSaleInput :=
  { clientId := "P1"
    agentId := "U1"
    agentType := .bot
    items := [{ sku := "SKU-1", quantity := 1 }]
    originChannel := none
    contextualNote := none
    currency := "EUR" }

/-- A product with zero stock, for exercising the transaction-abort path. -/
def productDrained : Product :=
  { id := "64b0c0ffee0123456789abc2"
    sku := "SKU-1"
    name := "Widget"
    active := true
    availableStock := 0
    version := 7
    standardSellingPrice := 5/2 }

/-- A store slice holding only the drained product. -/
def drainedState : SalesState := { products := [productDrained], sales := [] }

/-- The sale document produced by `createSale eighthState [clientP1]
inputOneEighth 1000 300 "64b0c0ffee0123456789abc1"`, spelled out. -/
def saleEighthResult : Sale :=
  { id := "64b0c0ffee0123456789abc1"
    clientId := "P1"
    agentId := "U1"
    agentType := .bot
    items := [{ productId := "64b0c0ffee0123456789abc0"
                sku := "SKU-1"
                name := "Widget"
                quantity := 1
                unitPrice := 1/8
                totalPrice := (12:ℚ)/100 }]
    totalAmount := (12:ℚ)/100
    currency := "EUR"
    status := .processing
    statusHistory := [{ status := "processing", timestamp := 1000, actorId := "U1" }]
    originChannel := none
    contextualNote := none
    createdAt := 1000
    updatedAt := 1000 }

/-- A recent sale of items `A:1` and `B:2` by agent `U1` for client `P1`. -/
def recentSaleAB : Sale :=
  { id := "64b0c0ffee0123456789abd0"
    clientId := "P1"
    agentId := "U1"
    agentType := .bot
    items := [{ productId := "pA", sku := "A", name := "A", quantity := 1,
                unitPrice := 1, totalPrice := 1 },
              { productId := "pB", sku := "B", name := "B", quantity := 2,
                unitPrice := 2, totalPrice := 4 }]
    totalAmount := 5
    currency := "EUR"
    status := .processing
    statusHistory := []
    originChannel := none
    contextualNote := none
    createdAt := 100
    updatedAt := 100 }

/-- A subscriber joined to the `sales_dashboard` group. -/
def subAlice : Subscriber := { principalId := "alice", joinedGroups := ["sales_dashboard"] }

/-- A subscriber joined to no group. -/
def subBob : Subscriber := { principalId := "bob", joinedGroups := [] }

/-- A JSON-like audit payload with a secret key, for the sanitizer witness. -/
def auditPayload1 : PyVal :=
  .dictVal [("password", .str "hunter2"),
            ("note", .listVal [.str "ok", .intVal 3]),
            ("nested", .dictVal [("api_key", .str "k-123"), ("count", .intVal 2)])]

/-- A caller-supplied request context that tries to spoof the authoritative
fields. -/
def attackerCtx : CtxDict :=
  [("agent_id", .strVal "admin"), ("roles", .listVal ["admin"]),
   ("user_id", .strVal "root")]

/-- The authenticated principal of the C4 witness. -/
def salesUser : UserPublic := { userId := "u-123", roles := ["sales_agent"] }

/-- The post-sale fan-out message for sale `"S1"`, spelled out. -/
def saleCreatedMsg : PublishedMessage :=
  publishWebsocketUpdate "all" "sales_dashboard" "sale_created"
    [("sale_id", "S1"), ("status", SaleStatus.processing.value)]

/-! ## Helper lemmas: the code-point string order is a total order -/

theorem charListLe_total : ∀ a b : List Char, charListLe a b = true ∨ charListLe b a = true := by
  intro a
  induction a with
  | nil => intro b; left; rfl
  | cons c as ih =>
      intro b
      cases b with
      | nil => right; rfl
      | cons d bs =>
          simp only [charListLe]
          rcases Nat.lt_trichotomy c.toNat d.toNat with h | h | h
          · left; simp [h]
          · have h1 : ¬ c.toNat < d.toNat := by omega
            have h2 : ¬ d.toNat < c.toNat := by omega
            rcases ih bs with h3 | h3
            · left; simp [h1, h2, h3]
            · right; simp [h1, h2, h3]
          · right; simp [h]

theorem charListLe_trans : ∀ a b c : List Char,
    charListLe a b = true → charListLe b c = true → charListLe a c = true := by
  intro a
  induction a with
  | nil => intro b c _ _; rfl
  | cons x as ih =>
      intro b c hab hbc
      cases b with
      | nil => simp [charListLe] at hab
      | cons y bs =>
          cases c with
          | nil => simp [charListLe] at hbc
          | cons z cs =>
              simp only [charListLe] at hab hbc ⊢
              rcases Nat.lt_trichotomy x.toNat y.toNat with hxy | hxy | hxy
              · rcases Nat.lt_trichotomy y.toNat z.toNat with hyz | hyz | hyz
                · have hlt : x.toNat < z.toNat := by omega
                  simp [hlt]
                · have hlt : x.toNat < z.toNat := by omega
                  simp [hlt]
                · have hn : ¬ y.toNat < z.toNat := by omega
                  simp [hn, hyz] at hbc
              · have hn1 : ¬ x.toNat < y.toNat := by omega
                have hn2 : ¬ y.toNat < x.toNat := by omega
                simp [hn1, hn2] at hab
                rcases Nat.lt_trichotomy y.toNat z.toNat with hyz | hyz | hyz
                · have hlt : x.toNat < z.toNat := by omega
                  simp [hlt]
                · have hn3 : ¬ y.toNat < z.toNat := by omega
                  have hn4 : ¬ z.toNat < y.toNat := by omega
                  simp [hn3, hn4] at hbc
                  have hn5 : ¬ x.toNat < z.toNat := by omega
                  have hn6 : ¬ z.toNat < x.toNat := by omega
                  simp [hn5, hn6]
                  exact ih bs cs hab hbc
                · have hn : ¬ y.toNat < z.toNat := by omega
                  simp [hn, hyz] at hbc
              · have hn : ¬ x.toNat < y.toNat := by omega
                simp [hn, hxy] at hab

theorem charToNat_inj {a b : Char} (h : a.toNat = b.toNat) : a = b :=
  Char.ext (UInt32.ext h)

theorem charListLe_antisymm : ∀ a b : List Char,
    charListLe a b = true → charListLe b a = true → a = b := by
  intro a
  induction a with
  | nil =>
      intro b _ hba
      cases b with
      | nil => rfl
      | cons d bs => simp [charListLe] at hba
  | cons x as ih =>
      intro b hab hba
      cases b with
      | nil => simp [charListLe] at hab
      | cons y bs =>
          simp only [charListLe] at hab hba
          by_cases hxy : x.toNat < y.toNat <;> by_cases hyx : y.toNat < x.toNat <;>
            simp_all
          · omega
          · have hx : x = y := charToNat_inj (by omega)
            exact ⟨hx, ih bs hab hba⟩

theorem strLeB_total : ∀ a b : String, strLeB a b = true ∨ strLeB b a = true := by
  intro a b; exact charListLe_total a.data b.data

theorem strLeB_trans : ∀ a b c : String,
    strLeB a b = true → strLeB b c = true → strLeB a c = true := by
  intro a b c hab hbc; exact charListLe_trans a.data b.data c.data hab hbc

theorem strLeB_antisymm : ∀ a b : String,
    strLeB a b = true → strLeB b a = true → a = b := by
  intro a b hab hba
  exact congrArg String.mk (charListLe_antisymm a.data b.data hab hba)

theorem sortStrings_sorted (l : List String) :
    (sortStrings l).Sorted (fun a b => strLeB a b = true) := by
  haveI : IsTotal String (fun a b => strLeB a b = true) := ⟨strLeB_total⟩
  haveI : IsTrans String (fun a b => strLeB a b = true) := ⟨strLeB_trans⟩
  exact List.sorted_insertionSort _ l

theorem sortStrings_congr_perm {l1 l2 : List String} (h : l1.Perm l2) :
    sortStrings l1 = sortStrings l2 := by
  haveI : IsAntisymm String (fun a b => strLeB a b = true) := ⟨strLeB_antisymm⟩
  exact List.eq_of_perm_of_sorted
    ((List.perm_insertionSort _ l1).trans (h.trans (List.perm_insertionSort _ l2).symm))
    (sortStrings_sorted l1) (sortStrings_sorted l2)

theorem saleSignature_congr_perm {p1 p2 : List (String × Nat)} (h : p1.Perm p2) :
    saleSignature p1 = saleSignature p2 := by
  unfold saleSignature
  rw [sortStrings_congr_perm (h.map _)]

/-! ## Helper lemmas: dict update and lookup -/

theorem lookupKey_setKey_self : ∀ (d : CtxDict) (k : String) (v : CtxVal),
    lookupKey (setKey d k v) k = some v := by
  intro d k v
  induction d with
  | nil => simp [setKey, lookupKey]
  | cons kv rest ih =>
      obtain ⟨k1, v1⟩ := kv
      by_cases h : k1 = k
      · simp [setKey, lookupKey, h]
      · simp [setKey, lookupKey, h, ih]

theorem lookupKey_setKey_of_ne : ∀ (d : CtxDict) (k k2 : String) (v : CtxVal),
    k2 ≠ k → lookupKey (setKey d k v) k2 = lookupKey d k2 := by
  intro d k k2 v hne
  induction d with
  | nil => simp [setKey, lookupKey, hne, Ne.symm hne]
  | cons kv rest ih =>
      obtain ⟨k1, v1⟩ := kv
      by_cases h : k1 = k
      · subst h
        have hne2 : k1 ≠ k2 := fun hc => hne hc.symm
        simp [setKey, lookupKey, hne2]
      · by_cases h2 : k1 = k2
        · simp [setKey, lookupKey, h, h2, hne, ih]
        · simp [setKey, lookupKey, h, h2, hne, ih]

/-! ## Helper lemma: the per-item loop of the sale transaction -/

theorem processSaleItems_ok : ∀ (items : List CreateSaleItemInput) (st st2 : SalesState)
    (its : List SaleItem) (total : ℚ),
    processSaleItems st items = .ok (st2, its, total) →
    (∀ it ∈ its, it.totalPrice = pyRound2 (it.unitPrice * (it.quantity : ℚ))) ∧
    total = (its.map SaleItem.totalPrice).sum := by
  intro items
  induction items with
  | nil =>
      intro st st2 its total h
      simp only [processSaleItems, Except.ok.injEq, Prod.mk.injEq] at h
      obtain ⟨-, h2, h3⟩ := h
      subst h2
      subst h3
      exact ⟨by simp, by simp⟩
  | cons i rest ih =>
      intro st st2 its total h
      simp only [processSaleItems] at h
      split at h
      · cases h
      · next xa st1 product halloc =>
          split at h
          · cases h
          · next xr st3 restItems restTotal hrest =>
              simp only [Except.ok.injEq, Prod.mk.injEq] at h
              obtain ⟨-, h2, h3⟩ := h
              subst h2
              subst h3
              obtain ⟨hA, hB⟩ := ih _ _ _ _ hrest
              constructor
              · intro it hit
                rcases List.mem_cons.mp hit with hhd | hmem
                · subst hhd; simp
                · exact hA it hmem
              · simp [hB]

/-! ## Helper lemmas: the MCP executor sanitizer enforces its caps -/

theorem isJsonLikeList_take : ∀ (n : Nat) (l : List PyVal),
    isJsonLikeList l = true → isJsonLikeList (l.take n) = true := by
  intro n l
  induction l generalizing n with
  | nil => intro h; cases n <;> simpa using h
  | cons x xs ih =>
      intro h
      cases n with
      | zero => rfl
      | succ n =>
          simp only [List.take, isJsonLikeList, Bool.and_eq_true] at h ⊢
          exact ⟨h.1, ih n h.2⟩

theorem sanitizedOkList_map (r : Nat) : ∀ (l : List PyVal),
    isJsonLikeList l = true →
    (∀ v, isJsonLike v = true → sanitizedOk (sanitizeAux r v) = true) →
    sanitizedOkList (l.map fun x => sanitizeAux r x) = true := by
  intro l
  induction l with
  | nil => intro _ _; rfl
  | cons x xs ih =>
      intro h hr
      simp only [isJsonLikeList, Bool.and_eq_true] at h
      simp only [List.map, sanitizedOkList, Bool.and_eq_true]
      exact ⟨hr x h.1, ih h.2 hr⟩

theorem sanitizedOkKvs_map (r : Nat) : ∀ (kvs : List (String × PyVal)),
    isJsonLikeKvs kvs = true →
    (∀ v, isJsonLike v = true → sanitizedOk (sanitizeAux r v) = true) →
    sanitizedOkKvs (kvs.map fun kv =>
      if isSecretKey kv.1 then (kv.1, PyVal.str "*** MASKED ***")
      else (kv.1, sanitizeAux r kv.2)) = true := by
  intro kvs
  induction kvs with
  | nil => intro _ _; rfl
  | cons kv rest ih =>
      intro h hr
      simp only [isJsonLikeKvs, Bool.and_eq_true] at h
      by_cases hsec : isSecretKey kv.1
      · simp only [List.map, hsec, if_true, sanitizedOkKvs, Bool.and_eq_true]
        exact ⟨by simp [hsec], ih h.2 hr⟩
      · simp only [List.map, hsec, if_false, sanitizedOkKvs, Bool.and_eq_true]
        exact ⟨by simp [hsec, hr kv.2 h.1], ih h.2 hr⟩

theorem sanitizeAux_jsonLike_ok : ∀ (r : Nat) (v : PyVal),
    isJsonLike v = true → sanitizedOk (sanitizeAux r v) = true := by
  intro r
  induction r with
  | zero => intro v _; rfl
  | succ r ih =>
      intro v hv
      cases v with
      | str s =>
          simp only [sanitizeAux]
          by_cases hlen : s.length > 500
          · simp only [hlen, if_true, sanitizedOk, decide_eq_true_eq]
            show (String.mk (s.data.take 500 ++ ("... TRUNCATED").data)).length ≤ 513
            have h1 : (s.data.take 500).length ≤ 500 := by
              simp [List.length_take]
            simp only [String.length, List.length_append, List.length_cons, List.length_nil]
            omega
          · simp only [hlen, if_false, sanitizedOk, decide_eq_true_eq]
            omega
      | intVal n => rfl
      | floatVal q => rfl
      | boolVal b => rfl
      | noneVal => rfl
      | listVal xs =>
          simp only [isJsonLike] at hv
          simp only [sanitizeAux, sanitizedOk, Bool.and_eq_true]
          constructor
          · simp only [decide_eq_true_eq, List.length_map, List.length_take]
            omega
          · exact sanitizedOkList_map r (xs.take 50) (isJsonLikeList_take 50 xs hv) ih
      | dictVal kvs =>
          simp only [isJsonLike] at hv
          simp only [sanitizeAux, sanitizedOk]
          exact sanitizedOkKvs_map r kvs hv ih
      | objVal t => simp [isJsonLike] at hv

theorem pyDepthList_map_le (r : Nat) : ∀ (l : List PyVal),
    (∀ v, pyDepth (sanitizeAux r v) ≤ r) →
    pyDepthList (l.map fun x => sanitizeAux r x) ≤ r := by
  intro l
  induction l with
  | nil => intro _; simp [pyDepthList]
  | cons x xs ih =>
      intro hr
      simp only [List.map, pyDepthList]
      exact max_le (hr x) (ih hr)

theorem pyDepthKvs_map_le (r : Nat) : ∀ (kvs : List (String × PyVal)),
    (∀ v, pyDepth (sanitizeAux r v) ≤ r) →
    pyDepthKvs (kvs.map fun kv =>
      if isSecretKey kv.1 then (kv.1, PyVal.str "*** MASKED ***")
      else (kv.1, sanitizeAux r kv.2)) ≤ r := by
  intro kvs
  induction kvs with
  | nil => intro _; simp [pyDepthKvs]
  | cons kv rest ih =>
      intro hr
      by_cases hsec : isSecretKey kv.1
      · simp only [List.map, hsec, if_true, pyDepthKvs]
        exact max_le (by simp [pyDepth]) (ih hr)
      · simp only [List.map, hsec, if_false, pyDepthKvs]
        exact max_le (hr kv.2) (ih hr)

theorem pyDepth_sanitizeAux_le : ∀ (r : Nat) (v : PyVal), pyDepth (sanitizeAux r v) ≤ r := by
  intro r
  induction r with
  | zero => intro v; simp [sanitizeAux, pyDepth]
  | succ r ih =>
      intro v
      cases v with
      | str s =>
          simp only [sanitizeAux]
          by_cases hlen : s.length > 500 <;> simp [hlen, pyDepth]
      | intVal n => simp [sanitizeAux, pyDepth]
      | floatVal q => simp [sanitizeAux, pyDepth]
      | boolVal b => simp [sanitizeAux, pyDepth]
      | noneVal => simp [sanitizeAux, pyDepth]
      | listVal xs =>
          simp only [sanitizeAux, pyDepth]
          have h := pyDepthList_map_le r (xs.take 50) ih
          omega
      | dictVal kvs =>
          simp only [sanitizeAux, pyDepth]
          have h := pyDepthKvs_map_le r kvs ih
          omega
      | objVal t => simp [sanitizeAux, pyDepth]

/-! ## Claim C1 -/

/-- C1: the claim says `update_delivery_status` accepts only the permitted
transitions of the delivery state machine and raises `InvalidDeliveryStatus`
(409) otherwise — in particular that `pending_assignment → in_transit` is
rejected.  The transition validation in the service is commented out, so the
code accepts the jump: on a delivery in `pending_assignment`, requesting
`in_transit` succeeds and sets the status, even though the spec state machine
(`specAllowedTransition`) forbids that transition. -/
theorem C1_code_accepts_pending_to_in_transit :
    ((updateDeliveryStatus deliveryStore1 pendingDelivery.id .inTransit
        "courier-9" none none 2000).toOption.map Delivery.currentStatus)
      = some .inTransit ∧
    pendingDelivery.currentStatus = .pendingAssignment ∧
    specAllowedTransition .pendingAssignment .inTransit = false := by
  refine ⟨by decide, rfl, rfl⟩

/-! ## Claim C9 -/

/-- C9: when the repository query for recent sales fails with a
`RepositoryError`, `_check_duplicate_sale` swallows the error and returns
normally, so `create_sale` proceeds without any duplicate detection. -/
theorem C9_repo_error_skips_duplicate_check :
    ∀ (e : RepoError) (agentId clientId : String) (items : List CreateSaleItemInput),
      checkDuplicateSale (.error e) agentId clientId items = .ok () := by
  intro e agentId clientId items
  rfl

/-! ## Claim C10 -/

/-- C10: for a `sale_id` that is not a syntactically valid ObjectId, the sale
repository returns `None` without touching the store (the result is the same
for every store), the sales service turns that into 404 `"Sale not found."`,
and the delivery repository likewise returns `None` for malformed delivery
ids. -/
theorem C10_malformed_object_id_is_404 :
    ∀ (sstore : SaleStore) (dstore : DeliveryStore) (objectId : String),
      isValidObjectId objectId = false →
      serviceGetSaleById sstore objectId = .error { statusCode := 404, detail := "Sale not found." } ∧
      getDeliveryById dstore objectId = none := by
  intro sstore dstore objectId h
  constructor
  · simp [serviceGetSaleById, getSaleById, h]
  · simp [getDeliveryById, h]

/-- Witness for C10 at the concrete malformed id `"not-an-objectid"` and the
empty stores. -/
theorem C10_malformed_object_id_is_404_witness :
    isValidObjectId "not-an-objectid" = false ∧
    (serviceGetSaleById (fun _ => none) "not-an-objectid"
        = .error { statusCode := 404, detail := "Sale not found." } ∧
     getDeliveryById (fun _ => none) "not-an-objectid" = none) :=
  ⟨by decide, C10_malformed_object_id_is_404 (fun _ => none) (fun _ => none)
      "not-an-objectid" (by decide)⟩

/-! ## Claim C4 -/

/-- C4: the execution context handed to the agent carries `agent_id`,
`user_id`, `roles` and `trace_id` taken from the authenticated principal,
whatever the caller put in its own `context`; two requests differing only in
the caller-supplied context agree on all four authoritative fields. -/
theorem C4_principal_overrides_caller_context :
    ∀ (c1 c2 : CtxDict) (u : UserPublic) (t : String),
      lookupKey (buildExecContext c1 u t) "agent_id" = some (.strVal u.userId) ∧
      lookupKey (buildExecContext c1 u t) "user_id" = some (.strVal u.userId) ∧
      lookupKey (buildExecContext c1 u t) "roles" = some (.listVal u.roles) ∧
      lookupKey (buildExecContext c1 u t) "trace_id" = some (.strVal t) ∧
      (∀ k, (k = "agent_id" ∨ k = "user_id" ∨ k = "roles" ∨ k = "trace_id") →
        lookupKey (buildExecContext c1 u t) k = lookupKey (buildExecContext c2 u t) k) := by
  intro c1 c2 u t
  have hAgent : ∀ c : CtxDict,
      lookupKey (buildExecContext c u t) "agent_id" = some (.strVal u.userId) := by
    intro c
    unfold buildExecContext
    rw [lookupKey_setKey_of_ne _ _ _ _ (by decide),
        lookupKey_setKey_of_ne _ _ _ _ (by decide),
        lookupKey_setKey_of_ne _ _ _ _ (by decide),
        lookupKey_setKey_self]
  have hUser : ∀ c : CtxDict,
      lookupKey (buildExecContext c u t) "user_id" = some (.strVal u.userId) := by
    intro c
    unfold buildExecContext
    rw [lookupKey_setKey_of_ne _ _ _ _ (by decide),
        lookupKey_setKey_of_ne _ _ _ _ (by decide),
        lookupKey_setKey_self]
  have hRoles : ∀ c : CtxDict,
      lookupKey (buildExecContext c u t) "roles" = some (.listVal u.roles) := by
    intro c
    unfold buildExecContext
    rw [lookupKey_setKey_of_ne _ _ _ _ (by decide),
        lookupKey_setKey_self]
  have hTrace : ∀ c : CtxDict,
      lookupKey (buildExecContext c u t) "trace_id" = some (.strVal t) := by
    intro c
    unfold buildExecContext
    rw [lookupKey_setKey_self]
  refine ⟨hAgent c1, hUser c1, hRoles c1, hTrace c1, ?_⟩
  intro k hk
  rcases hk with rfl | rfl | rfl | rfl
  · rw [hAgent c1, hAgent c2]
  · rw [hUser c1, hUser c2]
  · rw [hRoles c1, hRoles c2]
  · rw [hTrace c1, hTrace c2]

/-- Witness for C4: the attacker-supplied context is overridden for the
principal `salesUser`, and the spoofing context yields the same authoritative
`agent_id` as the empty context. -/
theorem C4_principal_overrides_caller_context_witness :
    lookupKey (buildExecContext attackerCtx salesUser "tr-1") "roles"
      = some (.listVal ["sales_agent"]) ∧
    lookupKey (buildExecContext attackerCtx salesUser "tr-1") "agent_id"
      = lookupKey (buildExecContext [] salesUser "tr-1") "agent_id" :=
  ⟨(C4_principal_overrides_caller_context attackerCtx [] salesUser "tr-1").2.2.1,
   (C4_principal_overrides_caller_context attackerCtx [] salesUser "tr-1").2.2.2.2
     "agent_id" (Or.inl rfl)⟩

/-! ## Claim C5 -/

/-- C5: the pre-flight duplicate check over the non-cancelled recent sales of
the same `(agent_id, client_id)` raises `DuplicateSaleError` — mapped to 409
by the sales agent — exactly when some recent sale has the same canonical
`sort(sku:qty).join("|")` signature as the request; consequently item lists
that are permutations of each other are detected as duplicates. -/
theorem C5_duplicate_signature_detection :
    ∀ (sales : List Sale) (agentId clientId : String) (now window : Nat)
      (items : List CreateSaleItemInput),
      (checkDuplicateSale (.ok (findRecentByAgentAndClient sales agentId clientId now window))
          agentId clientId items = .error (.duplicateSale clientId agentId)
        ↔ ∃ s ∈ findRecentByAgentAndClient sales agentId clientId now window,
            saleSignature (itemPairsOfSale s) = saleSignature (itemPairsOfInput items)) ∧
      salesAgentStatusCode (.duplicateSale clientId agentId) = 409 ∧
      (∀ s ∈ findRecentByAgentAndClient sales agentId clientId now window,
        (itemPairsOfSale s).Perm (itemPairsOfInput items) →
        checkDuplicateSale (.ok (findRecentByAgentAndClient sales agentId clientId now window))
          agentId clientId items = .error (.duplicateSale clientId agentId)) := by
  intro sales agentId clientId now window items
  have hiff : (checkDuplicateSale
        (.ok (findRecentByAgentAndClient sales agentId clientId now window))
        agentId clientId items = .error (.duplicateSale clientId agentId))
      ↔ ∃ s ∈ findRecentByAgentAndClient sales agentId clientId now window,
          saleSignature (itemPairsOfSale s) = saleSignature (itemPairsOfInput items) := by
    unfold checkDuplicateSale
    dsimp only
    by_cases hany : (findRecentByAgentAndClient sales agentId clientId now window).any
        (fun s => saleSignature (itemPairsOfSale s) == saleSignature (itemPairsOfInput items))
        = true
    · rw [if_pos hany]
      constructor
      · intro _
        rw [List.any_eq_true] at hany
        obtain ⟨s, hs, hbeq⟩ := hany
        exact ⟨s, hs, by rwa [beq_iff_eq] at hbeq⟩
      · intro _; rfl
    · rw [if_neg hany]
      constructor
      · intro h; exact absurd h (by simp)
      · rintro ⟨s, hs, heq⟩
        exfalso
        apply hany
        rw [List.any_eq_true]
        exact ⟨s, hs, beq_iff_eq.mpr heq⟩
  refine ⟨hiff, rfl, ?_⟩
  intro s hs hperm
  exact hiff.mpr ⟨s, hs, saleSignature_congr_perm hperm⟩

/-- Witness for C5: a permuted resubmission of `recentSaleAB`'s items within
the window is flagged as a duplicate. -/
theorem C5_duplicate_signature_detection_witness :
    checkDuplicateSale (.ok (findRecentByAgentAndClient [recentSaleAB] "U1" "P1" 100 300))
      "U1" "P1" [{ sku := "B", quantity := 2 }, { sku := "A", quantity := 1 }]
      = .error (.duplicateSale "P1" "U1") :=
  (C5_duplicate_signature_detection [recentSaleAB] "U1" "P1" 100 300
      [{ sku := "B", quantity := 2 }, { sku := "A", quantity := 1 }]).2.2
    recentSaleAB (by decide) (by decide)

/-! ## Claim C2 -/

/-- C2: when any step of `create_sale` raises — stock allocation, pricing or
the sale insert — the enclosing multi-document transaction aborts and the
post-call store state equals the pre-call snapshot: no sale document is
persisted and every product's `available_stock` (indeed every product field)
is unchanged.  Stock allocation itself is modelled from the spec, since
`app/modules/products/service.py` is not in the source tree. -/
theorem C2_transaction_abort_preserves_state :
    ∀ (st : SalesState) (profiles : List Profile) (inp : CreateSaleInput)
      (now window : Nat) (newSaleId : String) (e : SalesError),
      (createSale st profiles inp now window newSaleId).2 = .error e →
      (createSale st profiles inp now window newSaleId).1 = st := by
  intro st profiles inp now window newSaleId e h
  rcases hfind : profiles.find? (fun p => p.id == inp.clientId) with _ | client
  · simp [createSale, hfind]
  · rcases hact : client.isActive with _ | _
    · simp [createSale, hfind, hact]
    · rcases hdup : checkDuplicateSale
          (.ok (findRecentByAgentAndClient st.sales inp.agentId inp.clientId now window))
          inp.agentId inp.clientId inp.items with e2 | ⟨⟩
      · simp [createSale, hfind, hact, hdup]
      · rcases hproc : processSaleItems st inp.items with e3 | ⟨st1, its, total⟩
        · simp [createSale, hfind, hact, hdup, hproc]
        · simp [createSale, hfind, hact, hdup, hproc] at h

/-- Witness for C2: a request for one unit of a drained product aborts with
`InsufficientStock`, and the store state (products and sales) is exactly the
pre-call state. -/
theorem C2_transaction_abort_preserves_state_witness :
    (createSale drainedState [clientP1] inputOneEighth 1000 300
        "64b0c0ffee0123456789abc3").1 = drainedState :=
  C2_transaction_abort_preserves_state drainedState [clientP1] inputOneEighth
    1000 300 "64b0c0ffee0123456789abc3" (.insufficientStock "SKU-1" 1 0) (by decide)

/-! ## Claim C3 -/

/-- C3 counterexample: the claim says each persisted `total_price` equals
`unit_price · quantity` rounded with decimal half-away-from-zero.  For a
product priced `0.125` and quantity 1 the code persists
`round(0.125, 2) = 0.12` (Python float rounding, ties to even), while
half-away-from-zero gives `0.13` — the claim fails on this sale. -/
theorem C3_rounding_counterexample :
    (createSale eighthState [clientP1] inputOneEighth 1000 300
        "64b0c0ffee0123456789abc1").2 = .ok saleEighthResult ∧
    saleEighthResult.items.map SaleItem.totalPrice = [(12:ℚ)/100] ∧
    specRound2 (productEighth.standardSellingPrice * (1:ℚ)) = (13:ℚ)/100 ∧
    (((12:ℚ)/100) == ((13:ℚ)/100)) = false := by
  exact ⟨by decide, by decide, by decide, by decide⟩

/-- C3 amended: every sale persisted by `create_sale` has
`items[i].total_price = round(unit_price · quantity, 2)` under Python's float
`round` (ties to even, `pyRound2`), and `total_amount = round(Σ total_price, 2)`
— the sum being accumulated in a binary float initialised to `0.0`, not a
fixed-precision decimal. -/
theorem C3_amended_python_float_rounding :
    ∀ (st : SalesState) (profiles : List Profile) (inp : CreateSaleInput)
      (now window : Nat) (newSaleId : String) (sale : Sale),
      (createSale st profiles inp now window newSaleId).2 = .ok sale →
      (∀ it ∈ sale.items, it.totalPrice = pyRound2 (it.unitPrice * (it.quantity : ℚ))) ∧
      sale.totalAmount = pyRound2 ((sale.items.map SaleItem.totalPrice).sum) := by
  intro st profiles inp now window newSaleId sale h
  rcases hfind : profiles.find? (fun p => p.id == inp.clientId) with _ | client
  · simp [createSale, hfind] at h
  · rcases hact : client.isActive with _ | _
    · simp [createSale, hfind, hact] at h
    · rcases hdup : checkDuplicateSale
          (.ok (findRecentByAgentAndClient st.sales inp.agentId inp.clientId now window))
          inp.agentId inp.clientId inp.items with e2 | ⟨⟩
      · simp [createSale, hfind, hact, hdup] at h
      · rcases hproc : processSaleItems st inp.items with e3 | ⟨st1, its, total⟩
        · simp [createSale, hfind, hact, hdup, hproc] at h
        · simp only [createSale, hfind, hact, hdup, hproc, Bool.not_true,
            Bool.false_eq_true, if_false, Except.ok.injEq] at h
          obtain ⟨hA, hB⟩ := processSaleItems_ok inp.items st st1 its total hproc
          subst h
          constructor
          · exact fun it hit => hA it hit
          · show pyRound2 total = pyRound2 ((its.map SaleItem.totalPrice).sum)
            rw [hB]

/-- Witness for C3 (amended) at the concrete `0.125`-priced sale. -/
theorem C3_amended_python_float_rounding_witness :
    (∀ it ∈ saleEighthResult.items,
      it.totalPrice = pyRound2 (it.unitPrice * (it.quantity : ℚ))) ∧
    saleEighthResult.totalAmount
      = pyRound2 ((saleEighthResult.items.map SaleItem.totalPrice).sum) :=
  C3_amended_python_float_rounding eighthState [clientP1] inputOneEighth 1000 300
    "64b0c0ffee0123456789abc1" saleEighthResult (by decide)

/-! ## Claim C6 -/

/-- C6 counterexample: the audit sink (`AuditService.log_event`) writes
`details` verbatim — a payload whose key `"password"` (a secret key by the
sanitizer's own test) reaches the audit record unmasked, so the claim that
every audit record written by the sink is sanitized fails on this input. -/
theorem C6_unsanitized_sink_counterexample :
    (auditLogEvent "U1" "create_sale" (some "sale") (some "S1") true
        (some (.dictVal [("password", .str "hunter2")])) none 0).details
      = .dictVal [("password", .str "hunter2")] ∧
    isSecretKey "password" = true ∧
    (("hunter2" : String) == "*** MASKED ***") = false := by
  refine ⟨rfl, by decide, by decide⟩

/-- C6 amended: the sanitization described by the claim lives in the MCP
executor's audit path (`mcp_executor.log_audit_event`), not in
`AuditService.log_event`.  There, `sanitize_log_data` masks every value whose
key contains a secret marker (including the extra marker `"senha"`),
truncates strings over 500 characters, cuts lists to 50 elements, and caps
recursion at depth 5 (so the output nests at most 6 container levels), while
the `AuditService` sink stores `details` unchanged. -/
theorem C6_amended_sanitizer_caps :
    (∀ v, isJsonLike v = true → sanitizedOk (sanitizeLogData v) = true) ∧
    (∀ v, pyDepth (sanitizeLogData v) ≤ 6) ∧
    (∀ (actorId action : String) (entityType entityId : Option String)
        (success : Bool) (details : PyVal) (traceId : Option String) (now : Nat),
      (auditLogEvent actorId action entityType entityId success (some details)
          traceId now).details = details) := by
  refine ⟨fun v hv => sanitizeAux_jsonLike_ok 6 v hv,
          fun v => pyDepth_sanitizeAux_le 6 v, ?_⟩
  intro actorId action entityType entityId success details traceId now
  rfl

/-- Witness for C6 (amended) on a concrete payload with secret keys. -/
theorem C6_amended_sanitizer_caps_witness :
    isJsonLike auditPayload1 = true ∧ sanitizedOk (sanitizeLogData auditPayload1) = true :=
  ⟨by decide, C6_amended_sanitizer_caps.1 auditPayload1 (by decide)⟩

/-! ## Claim C7 -/

/-- C7 counterexample: the post-commit fan-out of a sale publishes with
envelope target `"all"`, not `"group"`, and on the backend events channel,
not `sales.created` — the claim's envelope fails on any committed sale. -/
theorem C7_fanout_counterexample :
    ((postSaleEvents "S1").map fun m => m.payload.targetField) = ["all"] ∧
    (("all" : String) == "group") = false ∧
    ((postSaleEvents "S1").map fun m => m.channel) = ["backend.events"] ∧
    (("backend.events" : String) == "sales.created") = false := by
  exact ⟨rfl, by decide, rfl, by decide⟩

/-- C7 amended: for every committed sale the fan-out publishes exactly one
event, on `settings.BACKEND_PUBLISH_EVENT_CHANNEL` (`"backend.events"`), with
event type `"sale_created"`, envelope target `"all"`, target id
`"sales_dashboard"`, and data holding the sale id and its status. -/
theorem C7_amended_fanout_envelope :
    ∀ saleId : String,
      (postSaleEvents saleId).length = 1 ∧
      ∀ m ∈ postSaleEvents saleId,
        m.channel = backendPublishEventChannel ∧
        m.payload.targetField = "all" ∧
        m.payload.targetIdField = "sales_dashboard" ∧
        m.payload.eventType = "sale_created" ∧
        m.payload.data = [("sale_id", saleId), ("status", SaleStatus.processing.value)] := by
  intro saleId
  refine ⟨rfl, ?_⟩
  intro m hm
  have hme := List.mem_singleton.mp hm
  subst hme
  exact ⟨rfl, rfl, rfl, rfl, rfl⟩

/-- Witness for C7 (amended) at sale id `"S1"`. -/
theorem C7_amended_fanout_envelope_witness :
    (postSaleEvents "S1").length = 1 ∧
    (saleCreatedMsg.channel = backendPublishEventChannel ∧
     saleCreatedMsg.payload.targetField = "all" ∧
     saleCreatedMsg.payload.targetIdField = "sales_dashboard" ∧
     saleCreatedMsg.payload.eventType = "sale_created" ∧
     saleCreatedMsg.payload.data = [("sale_id", "S1"), ("status", SaleStatus.processing.value)]) :=
  ⟨(C7_amended_fanout_envelope "S1").1,
   (C7_amended_fanout_envelope "S1").2 saleCreatedMsg (by decide)⟩

/-! ## Claim C8 -/

/-- C8 counterexample: a message with target `"group"` is not delivered only
to subscribers joined to the group — the listener's `else` branch broadcasts
it to everyone, here including `subBob`, who joined no group. -/
theorem C8_group_routing_counterexample :
    deliveredTo { targetField := some "group", targetIdField := some "sales_dashboard" }
      [subAlice, subBob] = [subAlice, subBob] ∧
    subBob.joinedGroups.contains "sales_dashboard" = false := by
  exact ⟨by decide, by decide⟩

/-- C8 amended: the broadcaster delivers target `"all"` (or a missing target)
to every live subscriber; target `"user"` with a non-empty target id only to
subscribers whose principal id equals the target id; and every other case —
target `"group"` included, and `"user"` without a target id — falls back to
broadcasting to all (with a warning). -/
theorem C8_amended_routing :
    ∀ (subs : List Subscriber) (tid t : String),
      deliveredTo { targetField := some "all", targetIdField := some tid } subs = subs ∧
      deliveredTo { targetField := none, targetIdField := some tid } subs = subs ∧
      (tid ≠ "" → deliveredTo { targetField := some "user", targetIdField := some tid } subs
        = subs.filter fun s => s.principalId == tid) ∧
      deliveredTo { targetField := some "user", targetIdField := none } subs = subs ∧
      deliveredTo { targetField := some "group", targetIdField := some tid } subs = subs ∧
      (t ≠ "all" → t ≠ "user" →
        deliveredTo { targetField := some t, targetIdField := some tid } subs = subs) := by
  intro subs tid t
  refine ⟨rfl, rfl, ?_, rfl, rfl, ?_⟩
  · intro h
    simp [deliveredTo, bne_iff_ne, h]
  · intro h1 h2
    have e1 : (t == "all") = false := beq_eq_false_iff_ne.mpr h1
    have e2 : (t == "user") = false := beq_eq_false_iff_ne.mpr h2
    simp [deliveredTo, e1, e2]

/-- Witness for C8 (amended): a `"user"`-targeted message reaches exactly the
matching subscriber. -/
theorem C8_amended_routing_witness :
    deliveredTo { targetField := some "user", targetIdField := some "alice" }
      [subAlice, subBob] = ([subAlice, subBob].filter fun s => s.principalId == "alice") :=
  (C8_amended_routing [subAlice, subBob] "alice" "x").2.2.1 (by decide)

end AgentOS
